import Mathlib

/-
Verification of the core logic of `src/main.py` (Prime Event Rentals tool API).

The embedding covers the pieces the spec's testable properties concern:
the static catalog `EQUIPMENT_DB`, the request models (pydantic classes),
the `parse_body` validation pipeline, and the five tool handlers
(`check_availability`, `get_price`, `calculate_price`, `create_booking`,
`human_handoff`).  Only the POST branch of each handler is modelled: the
non-POST branch returns a static informational note and is transport-level
routing outside the spec's core.

Library calls that are not repository code are modelled as follows:
  * `raw.decode()` / `json.loads` — a raw request body is represented by
    `Body`, partitioned by the outcome of decoding: zero-length; non-empty
    but not valid UTF-8 (where `raw.decode()` raises `UnicodeDecodeError`,
    which no `except` clause catches — an internal server error); valid
    UTF-8 but unparseable as JSON (`JSONDecodeError`); or parsed to a
    `Json` value.  Python dicts built by `json.loads` keep the last
    occurrence of a duplicated key, which `getField` mirrors.  Non-integer
    JSON numbers, which `json.loads` maps to Python floats, are carried as
    exact rationals (`Json.num`); no claim below depends on double-precision
    rounding of a literal.
  * pydantic validation (`model(**data)`) — modelled from the declared model
    classes under pydantic v1's lax coercion, whose error templates the
    strings below quote: an `int` field accepts a Python int, a bool
    (`int(True) = 1`), a float (`int()` truncates toward zero) and a string
    that `int(str)` parses, and otherwise fails with "value is not a valid
    integer"; a `str` field accepts a string and coerces int/float/bool via
    `str()`, and otherwise fails with "str type expected"; a missing
    required field fails with "field required"; an `Optional[str] = None`
    field may also be absent or null.  Unknown fields are ignored; all
    failing fields are collected into a structured error list, in
    declaration order, as `ValidationError.errors()` does.  A null in a
    required field is rendered with the same template as other type
    mismatches; no claim depends on message text beyond the per-field
    structure.  `int(str)` is modelled with ASCII surrounding whitespace,
    an optional sign, and digits with single underscores between them;
    `str()` of a float is a rendering stand-in (`pyFloatStr`) whose exact
    text no claim inspects — only the fact that the coercion succeeds.
  * `model(**data)` when `data` is not a mapping (the parsed JSON is an
    array, string, number, boolean or null) raises `TypeError` in Python,
    which the `try` in `parse_body` does NOT catch (it only catches
    `json.JSONDecodeError` and `ValidationError`); this uncaught-exception
    path is `Result.crash`, surfacing as an HTTP 500 at the transport
    layer, exactly like the `UnicodeDecodeError` path above.
-/

namespace Rental

/-- A JSON value, as produced by Python's `json.loads`: integer literals
become `int`, other numeric literals become floats, carried here as their
exact rational values (`num`). -/
inductive Json where
  | str (s : String)
  | int (n : Int)
  | num (q : ℚ)
  | bool (b : Bool)
  | null
  | arr (elems : List Json)
  | obj (fields : List (String × Json))
  deriving Repr

/-- A raw HTTP request body, partitioned by the outcome of decoding it:
`empty` is a zero-length body; `undecodable` is a non-empty body that is
not valid UTF-8, on which `raw.decode()` raises `UnicodeDecodeError`;
`malformed` is a non-empty UTF-8 body on which `json.loads` raises
`JSONDecodeError`; `json v` is a body that parses to the JSON value `v`. -/
inductive Body where
  | empty
  | undecodable
  | malformed
  | json (v : Json)
  deriving Repr

/-- One entry of pydantic's `ValidationError.errors()` list: the failing
field's location and the reason it failed. -/
structure FieldError where
  loc : String
  msg : String
  deriving Repr, DecidableEq

/-- The client-error taxonomy raised by `parse_body` and the handlers,
i.e. every `HTTPException` the source constructs. -/
inductive ApiError where
  | emptyBody
  | malformedJSON
  | schemaViolation (errors : List FieldError)
  | notFound
  deriving Repr, DecidableEq

/-- The HTTP status code each `HTTPException` in the source carries. -/
def ApiError.statusCode : ApiError → Nat
  | .emptyBody => 400
  | .malformedJSON => 400
  | .schemaViolation _ => 422
  | .notFound => 404

/-- Outcome of an operation: a success payload, a raised `HTTPException`
from the client-error taxonomy, or an exception no `except` clause catches
(rendered by the framework as an internal server error). -/
inductive Result (α : Type) where
  | ok (a : α)
  | error (e : ApiError)
  | crash
  deriving Repr

/-- pydantic model `AvailabilityRequest` of `src/main.py`. -/
structure AvailabilityRequest where
  item : String
  quantity : Int
  event_date : String
  deriving Repr, DecidableEq

/-- pydantic model `PriceRequest` of `src/main.py`. -/
structure PriceRequest where
  item : String
  quantity : Int
  days : Int
  deriving Repr, DecidableEq

/-- pydantic model `BookingRequest` of `src/main.py`. -/
structure BookingRequest where
  customer_name : String
  phone : String
  item : String
  quantity : Int
  event_date : String
  location : String
  deriving Repr, DecidableEq

/-- pydantic model `HandoffRequest` of `src/main.py`. -/
structure HandoffRequest where
  name : String
  phone : String
  message : Option String
  deriving Repr, DecidableEq

/-- One value of the catalog dict `EQUIPMENT_DB`. -/
structure Entry where
  price : Int
  available : Int
  deriving Repr, DecidableEq

/-- The static catalog `EQUIPMENT_DB` of `src/main.py`. -/
def EQUIPMENT_DB : List (String × Entry) :=
  [("chairs", ⟨5, 300⟩),
   ("tables", ⟨15, 80⟩),
   ("canopy", ⟨250, 10⟩),
   ("sound_system", ⟨400, 5⟩),
   ("generator", ⟨350, 4⟩)]

/-- The constant `DELIVERY_FEE` of `src/main.py`. -/
def DELIVERY_FEE : Int := 100

/-- Python's `str.lower()` as the handlers use it.  The catalog keys are
ASCII, so per-character ASCII lowering is the behaviour that matters;
it is written over the character list so the kernel can evaluate it. -/
def pyLower (s : String) : String := ⟨s.data.map Char.toLower⟩

/-- Catalog lookup: `item in EQUIPMENT_DB` / `EQUIPMENT_DB[item]`. -/
def lookup (item : String) : Option Entry :=
  (EQUIPMENT_DB.find? (fun p => p.1 == item)).map (·.2)

/-- Field access on a parsed JSON object, with Python's dict semantics:
the last occurrence of a duplicated key wins. -/
def getField (fields : List (String × Json)) (key : String) : Option Json :=
  (fields.reverse.find? (fun p => p.1 == key)).map (·.2)

/-- Field access through a `Json` value (none on non-objects). -/
def Json.getKey : Json → String → Option Json
  | .obj fields, key => getField fields key
  | _, _ => none

/-- Whitespace as Python's `int(str)` strips it around a numeral
(ASCII space, tab, newline, carriage return, vertical tab, form feed). -/
def isPySpace (c : Char) : Bool :=
  c == ' ' || c == '\t' || c == '\n' || c == '\r' || c.toNat == 11 || c.toNat == 12

/-- Strips leading and trailing Python whitespace from a character list. -/
def pyStrip (cs : List Char) : List Char :=
  ((cs.dropWhile isPySpace).reverse.dropWhile isPySpace).reverse

/-- Digit accumulation for Python's `int(str)`: after a first digit,
further digits follow, with single underscores allowed only between
digits. -/
def parseDigitsAux : Nat → List Char → Option Nat
  | acc, [] => some acc
  | acc, '_' :: c :: rest =>
    if c.isDigit then parseDigitsAux (acc * 10 + (c.toNat - 48)) rest else none
  | _, ['_'] => none
  | acc, c :: rest =>
    if c.isDigit then parseDigitsAux (acc * 10 + (c.toNat - 48)) rest else none

/-- A numeral must start with a digit (no leading underscore). -/
def parseDigitsStart : List Char → Option Nat
  | [] => none
  | c :: rest => if c.isDigit then parseDigitsAux (c.toNat - 48) rest else none

/-- Python's `int(str)`: optional surrounding whitespace, an optional
sign, then decimal digits with single underscores between digits; any
other string (including float literals such as "10.5") raises and so
yields `none`. -/
def pyParseInt (s : String) : Option Int :=
  match pyStrip s.data with
  | '+' :: rest => (parseDigitsStart rest).map (fun n => (n : Int))
  | '-' :: rest => (parseDigitsStart rest).map (fun n => -(n : Int))
  | rest => (parseDigitsStart rest).map (fun n => (n : Int))

/-- Python's `int()` applied to a float value: truncation toward zero
(`Int.tdiv` is the Lean division that rounds toward zero). -/
def pyTruncate (q : ℚ) : Int := Int.tdiv q.num (q.den : Int)

/-- Stand-in for Python's `str()` applied to a float value.  Python
renders the shortest decimal that reads back to the same double; no claim
in this file inspects the rendered text — only the fact that pydantic v1
coerces a float in a `str` field successfully — so the rational's
printout is used. -/
def pyFloatStr (q : ℚ) : String := toString q

/-- Validation of one required `str` field of a pydantic model, with v1's
lax coercion (`str_validator`): a string is taken as is; int, float and
bool values are coerced via `str()` (bool is a Python int, so `True`
renders as "True"); null, arrays and objects fail. -/
def requireStr (fields : List (String × Json)) (key : String) :
    Except FieldError String :=
  match getField fields key with
  | none => .error ⟨key, "field required"⟩
  | some (.str s) => .ok s
  | some (.int n) => .ok (toString n)
  | some (.num q) => .ok (pyFloatStr q)
  | some (.bool b) => .ok (if b then "True" else "False")
  | some _ => .error ⟨key, "str type expected"⟩

/-- Validation of one required `int` field of a pydantic model, with v1's
lax coercion (`int_validator`): an int is taken as is; a bool coerces via
`int(True) = 1`; a float truncates toward zero; a string is parsed with
`int(str)`; anything else — including a non-numeric string — fails. -/
def requireInt (fields : List (String × Json)) (key : String) :
    Except FieldError Int :=
  match getField fields key with
  | none => .error ⟨key, "field required"⟩
  | some (.int n) => .ok n
  | some (.bool b) => .ok (if b then 1 else 0)
  | some (.num q) => .ok (pyTruncate q)
  | some (.str s) =>
    match pyParseInt s with
    | some n => .ok n
    | none => .error ⟨key, "value is not a valid integer"⟩
  | some _ => .error ⟨key, "value is not a valid integer"⟩

/-- Validation of one `Optional[str] = None` field: absent or null yields
`none`; any other value goes through the `str` coercion of `requireStr`. -/
def optionalStr (fields : List (String × Json)) (key : String) :
    Except FieldError (Option String) :=
  match getField fields key with
  | none => .ok none
  | some .null => .ok none
  | some (.str s) => .ok (some s)
  | some (.int n) => .ok (some (toString n))
  | some (.num q) => .ok (some (pyFloatStr q))
  | some (.bool b) => .ok (some (if b then "True" else "False"))
  | some _ => .error ⟨key, "str type expected"⟩

/-- Applicative combination of field validations that accumulates every
field error, in declaration order, as pydantic does. -/
def vApp {α β : Type} (f : Except (List FieldError) (α → β))
    (a : Except FieldError α) : Except (List FieldError) β :=
  match f, a with
  | .ok g, .ok x => .ok (g x)
  | .ok _, .error e => .error [e]
  | .error es, .ok _ => .error es
  | .error es, .error e => .error (es ++ [e])

/-- pydantic validation `AvailabilityRequest(**data)`. -/
def AvailabilityRequest.validate (fields : List (String × Json)) :
    Except (List FieldError) AvailabilityRequest :=
  vApp (vApp (vApp (.ok AvailabilityRequest.mk)
    (requireStr fields "item"))
    (requireInt fields "quantity"))
    (requireStr fields "event_date")

/-- pydantic validation `PriceRequest(**data)`. -/
def PriceRequest.validate (fields : List (String × Json)) :
    Except (List FieldError) PriceRequest :=
  vApp (vApp (vApp (.ok PriceRequest.mk)
    (requireStr fields "item"))
    (requireInt fields "quantity"))
    (requireInt fields "days")

/-- pydantic validation `BookingRequest(**data)`. -/
def BookingRequest.validate (fields : List (String × Json)) :
    Except (List FieldError) BookingRequest :=
  vApp (vApp (vApp (vApp (vApp (vApp (.ok BookingRequest.mk)
    (requireStr fields "customer_name"))
    (requireStr fields "phone"))
    (requireStr fields "item"))
    (requireInt fields "quantity"))
    (requireStr fields "event_date"))
    (requireStr fields "location")

/-- pydantic validation `HandoffRequest(**data)`. -/
def HandoffRequest.validate (fields : List (String × Json)) :
    Except (List FieldError) HandoffRequest :=
  vApp (vApp (vApp (.ok HandoffRequest.mk)
    (requireStr fields "name"))
    (requireStr fields "phone"))
    (optionalStr fields "message")

/-- The `parse_body` helper of `src/main.py`.  A zero-length body raises
HTTP 400 "Empty request body"; a `JSONDecodeError` raises HTTP 400
"Invalid JSON body"; a `ValidationError` raises HTTP 422 with the
structured error list.  Two exceptions escape the `try` uncaught: a
non-UTF-8 body makes `raw.decode()` raise `UnicodeDecodeError`, and a
parsed JSON value that is not an object makes `model(**data)` raise
`TypeError`; both paths are `Result.crash`. -/
def parse_body {α : Type}
    (validate : List (String × Json) → Except (List FieldError) α) :
    Body → Result α
  | .empty => .error .emptyBody
  | .undecodable => .crash
  | .malformed => .error .malformedJSON
  | .json (.obj fields) =>
    match validate fields with
    | .ok a => .ok a
    | .error es => .error (.schemaViolation es)
  | .json _ => .crash

/-- Sequencing of the parsing step into a handler body: a raised
`HTTPException` or an uncaught exception propagates. -/
def bindResult {α : Type} (r : Result α) (f : α → Result Json) : Result Json :=
  match r with
  | .ok a => f a
  | .error e => .error e
  | .crash => .crash

/-- Body of `check_availability` after `parse_body` (POST branch). -/
def check_availability_core (payload : AvailabilityRequest) : Result Json :=
  let item := pyLower payload.item
  match lookup item with
  | none => .ok (.obj [("available", .bool false), ("reason", .str "Item not found")])
  | some entry =>
    .ok (.obj
      [("item", .str item),
       ("requested_quantity", .int payload.quantity),
       ("available", .bool (decide (payload.quantity ≤ entry.available))),
       ("available_quantity", .int entry.available)])

/-- Body of `get_price` after `parse_body` (POST branch). -/
def get_price_core (payload : PriceRequest) : Result Json :=
  let item := pyLower payload.item
  match lookup item with
  | none => .error .notFound
  | some entry =>
    .ok (.obj
      [("item", .str item),
       ("unit_price_per_day", .int entry.price),
       ("currency", .str "GHS")])

/-- Body of `calculate_price` after `parse_body` (POST branch). -/
def calculate_price_core (payload : PriceRequest) : Result Json :=
  let item := pyLower payload.item
  match lookup item with
  | none => .error .notFound
  | some entry =>
    let unit_price := entry.price
    let subtotal := unit_price * payload.quantity * payload.days
    let total := subtotal + DELIVERY_FEE
    .ok (.obj
      [("item", .str item),
       ("quantity", .int payload.quantity),
       ("days", .int payload.days),
       ("unit_price", .int unit_price),
       ("subtotal", .int subtotal),
       ("delivery_fee", .int DELIVERY_FEE),
       ("total_price", .int total),
       ("currency", .str "GHS")])

/-- The field list of `payload.dict()` for a validated `BookingRequest`,
in declaration order. -/
def BookingRequest.dictFields (b : BookingRequest) : List (String × Json) :=
  [("customer_name", .str b.customer_name),
   ("phone", .str b.phone),
   ("item", .str b.item),
   ("quantity", .int b.quantity),
   ("event_date", .str b.event_date),
   ("location", .str b.location)]

/-- Body of `create_booking` after `parse_body` (POST branch). -/
def create_booking_core (payload : BookingRequest) : Result Json :=
  let item := pyLower payload.item
  match lookup item with
  | none => .error .notFound
  | some _ =>
    .ok (.obj
      [("status", .str "pending"),
       ("message", .str "Booking request received. Availability and pricing will be confirmed."),
       ("booking_details", .obj payload.dictFields)])

/-- Body of `human_handoff` after `parse_body` (POST branch). -/
def human_handoff_core (payload : HandoffRequest) : Result Json :=
  .ok (.obj
    [("status", .str "received"),
     ("message", .str "A team member will contact you shortly."),
     ("contact", .obj [("name", .str payload.name), ("phone", .str payload.phone)])])

/-- The `check_availability` endpoint on a POST body. -/
def check_availability (body : Body) : Result Json :=
  bindResult (parse_body AvailabilityRequest.validate body) check_availability_core

/-- The `get_price` endpoint on a POST body. -/
def get_price (body : Body) : Result Json :=
  bindResult (parse_body PriceRequest.validate body) get_price_core

/-- The `calculate_price` endpoint on a POST body. -/
def calculate_price (body : Body) : Result Json :=
  bindResult (parse_body PriceRequest.validate body) calculate_price_core

/-- The `create_booking` endpoint on a POST body. -/
def create_booking (body : Body) : Result Json :=
  bindResult (parse_body BookingRequest.validate body) create_booking_core

/-- The `human_handoff` endpoint on a POST body. -/
def human_handoff (body : Body) : Result Json :=
  bindResult (parse_body HandoffRequest.validate body) human_handoff_core

/-- An outcome belonging to the spec's client-facing taxonomy: a success
payload or one of the four client-error kinds — anything but an uncaught
exception. -/
def isClientOutcome {α : Type} : Result α → Bool
  | .ok _ => true
  | .error _ => true
  | .crash => false

/-- A `vApp` step keeps an accumulated error list nonempty: if the result
is an error list, it is nonempty whenever every error list the first
argument can be is. -/
theorem vApp_error_ne_nil {α β : Type} {f : Except (List FieldError) (α → β)}
    {a : Except FieldError α} {es : List FieldError}
    (hf : ∀ es₀, f = .error es₀ → es₀ ≠ [])
    (h : vApp f a = .error es) : es ≠ [] := by
  cases f with
  | ok g =>
    cases a with
    | ok x => simp [vApp] at h
    | error e => simp [vApp] at h; subst h; simp
  | error es₀ =>
    cases a with
    | ok x => simp [vApp] at h; subst h; exact hf es₀ rfl
    | error e => simp [vApp] at h; subst h; simp

/-- A failed `PriceRequest` validation always carries at least one field
error. -/
theorem priceValidate_error_ne_nil {fields : List (String × Json)}
    {es : List FieldError}
    (h : PriceRequest.validate fields = .error es) : es ≠ [] := by
  unfold PriceRequest.validate at h
  refine vApp_error_ne_nil (fun es₀ h₀ => ?_) h
  refine vApp_error_ne_nil (fun es₁ h₁ => ?_) h₀
  refine vApp_error_ne_nil (fun es₂ h₂ => ?_) h₁
  simp at h₂

/-- A `quantity` holding a string that `int(str)` cannot parse always
surfaces as a structured field error in the validation result. -/
theorem priceValidate_nonNumericQuantity (fields : List (String × Json))
    (s : String) (hq : getField fields "quantity" = some (.str s))
    (hps : pyParseInt s = none) :
    ∃ es, PriceRequest.validate fields = .error es ∧
      (⟨"quantity", "value is not a valid integer"⟩ : FieldError) ∈ es := by
  have h2 : requireInt fields "quantity" =
      .error ⟨"quantity", "value is not a valid integer"⟩ := by
    simp [requireInt, hq, hps]
  unfold PriceRequest.validate
  rw [h2]
  cases h1 : requireStr fields "item" <;>
    cases h3 : requireInt fields "days" <;>
      simp [vApp]

/-- C1: for every valid `PriceRequest` whose lowercased item is a catalog
key with unit price `p`, the calculate-price operation returns
subtotal `p * quantity * days`, delivery fee 100, total `subtotal + 100`
and currency "GHS". -/
theorem calculate_price_correct (payload : PriceRequest) (e : Entry)
    (h : lookup (pyLower payload.item) = some e) :
    ∃ out, calculate_price_core payload = .ok (.obj out) ∧
      getField out "unit_price" = some (.int e.price) ∧
      getField out "subtotal" = some (.int (e.price * payload.quantity * payload.days)) ∧
      getField out "delivery_fee" = some (.int 100) ∧
      getField out "total_price" = some (.int (e.price * payload.quantity * payload.days + 100)) ∧
      getField out "currency" = some (.str "GHS") := by
  simp only [calculate_price_core, h]
  exact ⟨_, rfl, rfl, rfl, rfl, rfl, rfl⟩

/-- Witness for C1 at the spec's concrete scenario: item "chairs"
(catalog price 5), quantity 10, days 3 gives subtotal 150 and total 250. -/
theorem calculate_price_correct_witness :
    ∃ out, calculate_price_core ⟨"chairs", 10, 3⟩ = .ok (.obj out) ∧
      getField out "unit_price" = some (.int 5) ∧
      getField out "subtotal" = some (.int 150) ∧
      getField out "delivery_fee" = some (.int 100) ∧
      getField out "total_price" = some (.int 250) ∧
      getField out "currency" = some (.str "GHS") := by
  have h := calculate_price_correct ⟨"chairs", 10, 3⟩ ⟨5, 300⟩ (by rfl)
  norm_num at h
  exact h

/-- C2: `check_availability` answers an unknown item with the normal
result containing `available = false` and reason "Item not found" and
never signals an error; on a known item it answers
`available = (quantity ≤ stock)` together with the stock count. -/
theorem check_availability_spec (payload : AvailabilityRequest) :
    (lookup (pyLower payload.item) = none →
      check_availability_core payload =
        .ok (.obj [("available", .bool false), ("reason", .str "Item not found")])) ∧
    (∀ e : Entry, lookup (pyLower payload.item) = some e →
      ∃ out, check_availability_core payload = .ok (.obj out) ∧
        getField out "available" = some (.bool (decide (payload.quantity ≤ e.available))) ∧
        getField out "available_quantity" = some (.int e.available)) ∧
    (∀ err : ApiError, check_availability_core payload ≠ .error err) ∧
    check_availability_core payload ≠ .crash := by
  refine ⟨fun h => ?_, fun e h => ?_, fun err => ?_, ?_⟩
  · simp only [check_availability_core, h]
  · simp only [check_availability_core, h]
    exact ⟨_, rfl, rfl, rfl⟩
  · simp only [check_availability_core]
    cases hl : lookup (pyLower payload.item) <;> simp
  · simp only [check_availability_core]
    cases hl : lookup (pyLower payload.item) <;> simp

/-- Witness for C2: unknown item "drone" gives the soft not-found result;
the spec's concrete scenario "sound_system", quantity 6 against stock 5
gives `available = false` and `available_quantity = 5`. -/
theorem check_availability_spec_witness :
    check_availability_core ⟨"drone", 1, "2025-12-01"⟩ =
      .ok (.obj [("available", .bool false), ("reason", .str "Item not found")]) ∧
    ∃ out, check_availability_core ⟨"sound_system", 6, "2025-12-01"⟩ = .ok (.obj out) ∧
      getField out "available" = some (.bool false) ∧
      getField out "available_quantity" = some (.int 5) := by
  refine ⟨(check_availability_spec ⟨"drone", 1, "2025-12-01"⟩).1 (by rfl), ?_⟩
  obtain ⟨out, h1, h2, h3⟩ :=
    (check_availability_spec ⟨"sound_system", 6, "2025-12-01"⟩).2.1 ⟨400, 5⟩ (by rfl)
  exact ⟨out, h1, by simpa using h2, h3⟩

/-- C3: a request whose lowercased item is not a catalog key makes each of
`get_price`, `calculate_price` and `create_booking` signal NotFound,
which carries HTTP status 404. -/
theorem unknown_item_signals_notFound (p : PriceRequest) (b : BookingRequest)
    (hp : lookup (pyLower p.item) = none) (hb : lookup (pyLower b.item) = none) :
    get_price_core p = .error .notFound ∧
    calculate_price_core p = .error .notFound ∧
    create_booking_core b = .error .notFound ∧
    ApiError.notFound.statusCode = 404 := by
  refine ⟨?_, ?_, ?_, rfl⟩ <;>
    simp only [get_price_core, calculate_price_core, create_booking_core, hp, hb]

/-- Witness for C3 at the spec's concrete scenario: item "drone" is
unknown, so all three operations signal NotFound. -/
theorem unknown_item_signals_notFound_witness :
    get_price_core ⟨"drone", 1, 1⟩ = .error .notFound ∧
    calculate_price_core ⟨"drone", 1, 1⟩ = .error .notFound ∧
    create_booking_core ⟨"Ama", "0200000000", "drone", 1, "2025-12-01", "Accra"⟩ =
      .error .notFound ∧
    ApiError.notFound.statusCode = 404 :=
  unknown_item_signals_notFound ⟨"drone", 1, 1⟩
    ⟨"Ama", "0200000000", "drone", 1, "2025-12-01", "Accra"⟩ (by rfl) (by rfl)

/-- C4 (counterexample): the claim fails on the code in two ways shown at
concrete inputs.  A wrongly typed field need not signal SchemaViolation:
pydantic coerces the numeric string in `{"item": "chairs", "quantity":
"10", "days": 3}`, and the body validates successfully.  And a non-empty
body that is not parseable JSON need not signal MalformedJSON: a
non-UTF-8 body crashes in `raw.decode()` before `json.loads` runs. -/
theorem validator_coercion_counterexample :
    parse_body PriceRequest.validate (.json (.obj
      [("item", Json.str "chairs"), ("quantity", Json.str "10"),
       ("days", Json.int 3)])) = .ok ⟨"chairs", 10, 3⟩ ∧
    parse_body PriceRequest.validate Body.undecodable = .crash :=
  ⟨rfl, rfl⟩

/-- C4 (amended): the validator distinguishes the three client-error
kinds: a zero-length body signals EmptyBody; a non-empty UTF-8 body that
is not parseable JSON signals MalformedJSON; a JSON object with a missing
required field, or with a field value its declared type rejects even
after pydantic's lax coercion (e.g. a non-numeric string in an int
field), signals SchemaViolation carrying a nonempty structured per-field
error list — while a numeric string in an int field is coerced and
accepted. -/
theorem validator_taxonomy_amended :
    parse_body PriceRequest.validate Body.empty = .error .emptyBody ∧
    parse_body PriceRequest.validate Body.malformed = .error .malformedJSON ∧
    parse_body PriceRequest.validate (.json (.obj [])) =
      .error (.schemaViolation
        [⟨"item", "field required"⟩, ⟨"quantity", "field required"⟩,
         ⟨"days", "field required"⟩]) ∧
    (∀ fields es, PriceRequest.validate fields = .error es →
      parse_body PriceRequest.validate (.json (.obj fields)) =
        .error (.schemaViolation es) ∧ es ≠ []) ∧
    (∀ fields s, getField fields "quantity" = some (.str s) →
      pyParseInt s = none →
      ∃ es, PriceRequest.validate fields = .error es ∧
        (⟨"quantity", "value is not a valid integer"⟩ : FieldError) ∈ es) ∧
    (∀ fields s n, getField fields "quantity" = some (.str s) →
      pyParseInt s = some n →
      requireInt fields "quantity" = .ok n) := by
  refine ⟨rfl, rfl, rfl, fun fields es h => ?_,
    priceValidate_nonNumericQuantity, fun fields s n h1 h2 => ?_⟩
  · exact ⟨by simp only [parse_body, h], priceValidate_error_ne_nil h⟩
  · simp [requireInt, h1, h2]

/-- Witness for C4's amended statement: `{"item": "chairs"}` yields a
SchemaViolation naming the two missing fields; `{"quantity": "ten"}`
yields one naming `quantity`; and `{"quantity": "10"}` coerces to the
integer 10. -/
theorem validator_taxonomy_amended_witness :
    (parse_body PriceRequest.validate
        (.json (.obj [("item", Json.str "chairs")])) =
      .error (.schemaViolation
        [⟨"quantity", "field required"⟩, ⟨"days", "field required"⟩]) ∧
      ([⟨"quantity", "field required"⟩, ⟨"days", "field required"⟩] :
        List FieldError) ≠ []) ∧
    (∃ es, PriceRequest.validate [("quantity", Json.str "ten")] = .error es ∧
      (⟨"quantity", "value is not a valid integer"⟩ : FieldError) ∈ es) ∧
    requireInt [("quantity", Json.str "10")] "quantity" = .ok 10 :=
  ⟨validator_taxonomy_amended.2.2.2.1 [("item", Json.str "chairs")] _ rfl,
   validator_taxonomy_amended.2.2.2.2.1 [("quantity", Json.str "ten")] "ten" rfl rfl,
   validator_taxonomy_amended.2.2.2.2.2 [("quantity", Json.str "10")] "10" 10 rfl rfl⟩

/-- C5 (counterexample): two internal-error paths are reachable, so not
every raw body yields a success payload or one of the four client-error
kinds.  A body that parses to valid JSON which is not an object — here
the array `[]` — makes `model(**data)` raise an uncaught `TypeError`, and
a non-empty body that is not valid UTF-8 makes `raw.decode()` raise an
uncaught `UnicodeDecodeError`. -/
theorem taxonomy_counterexample :
    calculate_price (.json (.arr [])) = .crash ∧
    calculate_price Body.undecodable = .crash ∧
    ¬ (∀ body, isClientOutcome (calculate_price body) = true) :=
  ⟨rfl, rfl, fun h => absurd (h (.json (.arr []))) (by decide)⟩

/-- The check-availability body never reaches an uncaught exception. -/
theorem check_availability_core_client (a : AvailabilityRequest) :
    isClientOutcome (check_availability_core a) = true := by
  simp only [check_availability_core]
  cases lookup (pyLower a.item) <;> rfl

/-- The get-price body never reaches an uncaught exception. -/
theorem get_price_core_client (p : PriceRequest) :
    isClientOutcome (get_price_core p) = true := by
  simp only [get_price_core]
  cases lookup (pyLower p.item) <;> rfl

/-- The calculate-price body never reaches an uncaught exception. -/
theorem calculate_price_core_client (p : PriceRequest) :
    isClientOutcome (calculate_price_core p) = true := by
  simp only [calculate_price_core]
  cases lookup (pyLower p.item) <;> rfl

/-- The create-booking body never reaches an uncaught exception. -/
theorem create_booking_core_client (b : BookingRequest) :
    isClientOutcome (create_booking_core b) = true := by
  simp only [create_booking_core]
  cases lookup (pyLower b.item) <;> rfl

/-- C5 (amended): every body that is empty, or decodes as UTF-8 but is not
parseable JSON, or parses to a JSON object yields, for every operation,
either a success payload or one of the four client-error kinds; and the
internal-error paths are exactly the remaining bodies — the non-UTF-8
bodies (uncaught `UnicodeDecodeError` in `raw.decode()`) and the bodies
parsing to non-object JSON (uncaught `TypeError` in `model(**data)`),
which crash every operation. -/
theorem taxonomy_amended (body : Body) :
    (body = .empty ∨ body = .malformed ∨
        (∃ fields, body = .json (.obj fields)) →
      isClientOutcome (check_availability body) = true ∧
      isClientOutcome (get_price body) = true ∧
      isClientOutcome (calculate_price body) = true ∧
      isClientOutcome (create_booking body) = true ∧
      isClientOutcome (human_handoff body) = true) ∧
    (body = .undecodable ∨
        (∃ v, body = .json v ∧ ∀ fields, v ≠ .obj fields) →
      check_availability body = .crash ∧
      get_price body = .crash ∧
      calculate_price body = .crash ∧
      create_booking body = .crash ∧
      human_handoff body = .crash) := by
  constructor
  · rintro (rfl | rfl | ⟨fields, rfl⟩)
    · exact ⟨rfl, rfl, rfl, rfl, rfl⟩
    · exact ⟨rfl, rfl, rfl, rfl, rfl⟩
    · refine ⟨?_, ?_, ?_, ?_, ?_⟩
      · simp only [check_availability, parse_body]
        cases hv : AvailabilityRequest.validate fields with
        | ok a => exact check_availability_core_client a
        | error es => rfl
      · simp only [get_price, parse_body]
        cases hv : PriceRequest.validate fields with
        | ok p => exact get_price_core_client p
        | error es => rfl
      · simp only [calculate_price, parse_body]
        cases hv : PriceRequest.validate fields with
        | ok p => exact calculate_price_core_client p
        | error es => rfl
      · simp only [create_booking, parse_body]
        cases hv : BookingRequest.validate fields with
        | ok b => exact create_booking_core_client b
        | error es => rfl
      · simp only [human_handoff, parse_body]
        cases hv : HandoffRequest.validate fields with
        | ok hf => rfl
        | error es => rfl
  · rintro (rfl | ⟨v, rfl, hv⟩)
    · exact ⟨rfl, rfl, rfl, rfl, rfl⟩
    · cases v with
      | obj fields => exact absurd rfl (hv fields)
      | str s => exact ⟨rfl, rfl, rfl, rfl, rfl⟩
      | int n => exact ⟨rfl, rfl, rfl, rfl, rfl⟩
      | num q => exact ⟨rfl, rfl, rfl, rfl, rfl⟩
      | bool b => exact ⟨rfl, rfl, rfl, rfl, rfl⟩
      | null => exact ⟨rfl, rfl, rfl, rfl, rfl⟩
      | arr elems => exact ⟨rfl, rfl, rfl, rfl, rfl⟩

/-- Witness for C5's amended statement: the empty body keeps every
operation inside the client-error taxonomy, and the non-UTF-8 body
crashes every operation. -/
theorem taxonomy_amended_witness :
    (isClientOutcome (check_availability Body.empty) = true ∧
     isClientOutcome (get_price Body.empty) = true ∧
     isClientOutcome (calculate_price Body.empty) = true ∧
     isClientOutcome (create_booking Body.empty) = true ∧
     isClientOutcome (human_handoff Body.empty) = true) ∧
    (check_availability Body.undecodable = .crash ∧
     get_price Body.undecodable = .crash ∧
     calculate_price Body.undecodable = .crash ∧
     create_booking Body.undecodable = .crash ∧
     human_handoff Body.undecodable = .crash) :=
  ⟨(taxonomy_amended Body.empty).1 (Or.inl rfl),
   (taxonomy_amended Body.undecodable).2 (Or.inl rfl)⟩

/-- C6: the `booking_details` field of a successful create-booking payload
is the validated input verbatim, field-for-field. -/
theorem booking_roundtrip (b : BookingRequest) (e : Entry)
    (h : lookup (pyLower b.item) = some e) :
    ∃ out, create_booking_core b = .ok (.obj out) ∧
      getField out "booking_details" = some (.obj b.dictFields) ∧
      getField b.dictFields "customer_name" = some (.str b.customer_name) ∧
      getField b.dictFields "phone" = some (.str b.phone) ∧
      getField b.dictFields "item" = some (.str b.item) ∧
      getField b.dictFields "quantity" = some (.int b.quantity) ∧
      getField b.dictFields "event_date" = some (.str b.event_date) ∧
      getField b.dictFields "location" = some (.str b.location) := by
  simp only [create_booking_core, h]
  exact ⟨_, rfl, rfl, rfl, rfl, rfl, rfl, rfl, rfl⟩

/-- Witness for C6 on a concrete booking for "chairs". -/
theorem booking_roundtrip_witness :
    ∃ out, create_booking_core ⟨"Ama", "0200000000", "chairs", 12, "2025-12-01", "Accra"⟩ =
        .ok (.obj out) ∧
      getField out "booking_details" =
        some (.obj (BookingRequest.dictFields
          ⟨"Ama", "0200000000", "chairs", 12, "2025-12-01", "Accra"⟩)) ∧
      getField (BookingRequest.dictFields
          ⟨"Ama", "0200000000", "chairs", 12, "2025-12-01", "Accra"⟩) "customer_name" =
        some (.str "Ama") ∧
      getField (BookingRequest.dictFields
          ⟨"Ama", "0200000000", "chairs", 12, "2025-12-01", "Accra"⟩) "phone" =
        some (.str "0200000000") ∧
      getField (BookingRequest.dictFields
          ⟨"Ama", "0200000000", "chairs", 12, "2025-12-01", "Accra"⟩) "item" =
        some (.str "chairs") ∧
      getField (BookingRequest.dictFields
          ⟨"Ama", "0200000000", "chairs", 12, "2025-12-01", "Accra"⟩) "quantity" =
        some (.int 12) ∧
      getField (BookingRequest.dictFields
          ⟨"Ama", "0200000000", "chairs", 12, "2025-12-01", "Accra"⟩) "event_date" =
        some (.str "2025-12-01") ∧
      getField (BookingRequest.dictFields
          ⟨"Ama", "0200000000", "chairs", 12, "2025-12-01", "Accra"⟩) "location" =
        some (.str "Accra") :=
  booking_roundtrip ⟨"Ama", "0200000000", "chairs", 12, "2025-12-01", "Accra"⟩
    ⟨5, 300⟩ (by rfl)

/-- The echoed item inside a create-booking success payload, used to
separate payloads that differ only in the caller's casing. -/
def bookedItem (r : Result Json) : Option Json :=
  match r with
  | .ok j => (j.getKey "booking_details").bind (fun d => d.getKey "item")
  | _ => none

/-- A catalog pair is found by `lookup` at its own key. -/
theorem mem_lookup {key : String} {e : Entry}
    (hk : (key, e) ∈ EQUIPMENT_DB) : lookup key = some e := by
  fin_cases hk <;> rfl

/-- C7 (counterexample): the outcome of `create_booking` does NOT depend on
the item name only through its lowercased form: "Chairs" and "chairs"
lowercase identically yet produce different outcomes, because the success
payload echoes the caller's original casing. -/
theorem casing_counterexample :
    pyLower "Chairs" = pyLower "chairs" ∧
    create_booking_core ⟨"Ama", "0200000000", "Chairs", 2, "2025-12-01", "Accra"⟩ ≠
      create_booking_core ⟨"Ama", "0200000000", "chairs", 2, "2025-12-01", "Accra"⟩ := by
  refine ⟨rfl, fun h => ?_⟩
  have h1 : bookedItem
      (create_booking_core ⟨"Ama", "0200000000", "Chairs", 2, "2025-12-01", "Accra"⟩) =
      some (.str "Chairs") := rfl
  rw [h] at h1
  have h2 : bookedItem
      (create_booking_core ⟨"Ama", "0200000000", "chairs", 2, "2025-12-01", "Accra"⟩) =
      some (.str "chairs") := rfl
  rw [h2] at h1
  injection h1 with h3
  injection h3 with h4
  exact absurd h4 (by decide)

/-- C7 (amended): item lookup is case-insensitive — any spelling resolves
to the catalog entry of its lowercased form — and the outcomes of
check-availability, get-price and calculate-price depend on the item name
only through its lowercased form; create_booking's found/not-found
decision does too, but its success payload echoes the original casing. -/
theorem casing_amended (s₁ s₂ : String) (hs : pyLower s₁ = pyLower s₂)
    (q days : Int) (ed nm ph loc key : String) (e : Entry)
    (hk : (key, e) ∈ EQUIPMENT_DB) :
    (pyLower s₁ = key → lookup (pyLower s₁) = some e) ∧
    check_availability_core ⟨s₁, q, ed⟩ = check_availability_core ⟨s₂, q, ed⟩ ∧
    get_price_core ⟨s₁, q, days⟩ = get_price_core ⟨s₂, q, days⟩ ∧
    calculate_price_core ⟨s₁, q, days⟩ = calculate_price_core ⟨s₂, q, days⟩ ∧
    (create_booking_core ⟨nm, ph, s₁, q, ed, loc⟩ = .error .notFound ↔
      create_booking_core ⟨nm, ph, s₂, q, ed, loc⟩ = .error .notFound) := by
  refine ⟨fun hkey => hkey ▸ mem_lookup hk, ?_, ?_, ?_, ?_⟩
  · simp only [check_availability_core]
    rw [hs]
  · simp only [get_price_core]
    rw [hs]
  · simp only [calculate_price_core]
    rw [hs]
  · simp only [create_booking_core]
    rw [hs]
    cases lookup (pyLower s₂) <;> simp

/-- Witness for C7's amended statement: "CHAIRS" and "Chairs" lowercase to
the catalog key "chairs" and behave identically in the three lookup-only
handlers. -/
theorem casing_amended_witness :
    (pyLower "CHAIRS" = "chairs" → lookup (pyLower "CHAIRS") = some ⟨5, 300⟩) ∧
    check_availability_core ⟨"CHAIRS", 4, "2025-12-01"⟩ =
      check_availability_core ⟨"Chairs", 4, "2025-12-01"⟩ ∧
    get_price_core ⟨"CHAIRS", 4, 2⟩ = get_price_core ⟨"Chairs", 4, 2⟩ ∧
    calculate_price_core ⟨"CHAIRS", 4, 2⟩ = calculate_price_core ⟨"Chairs", 4, 2⟩ ∧
    (create_booking_core ⟨"Ama", "0200000000", "CHAIRS", 4, "2025-12-01", "Accra"⟩ =
        .error .notFound ↔
      create_booking_core ⟨"Ama", "0200000000", "Chairs", 4, "2025-12-01", "Accra"⟩ =
        .error .notFound) :=
  casing_amended "CHAIRS" "Chairs" (by rfl) 4 2 "2025-12-01" "Ama" "0200000000"
    "Accra" "chairs" ⟨5, 300⟩ (by decide)

/-- C8: validation never rejects zero or negative quantity or days: the
full calculate-price pipeline on a JSON body with such integers succeeds
and returns subtotal `unit_price * quantity * days`, which can be zero or
negative. -/
theorem nonpositive_accepted (s : String) (q d : Int) (e : Entry)
    (h : lookup (pyLower s) = some e) (_hqd : q ≤ 0 ∨ d ≤ 0) :
    ∃ out,
      calculate_price (.json (.obj
        [("item", .str s), ("quantity", .int q), ("days", .int d)])) =
        .ok (.obj out) ∧
      getField out "subtotal" = some (.int (e.price * q * d)) ∧
      getField out "total_price" = some (.int (e.price * q * d + 100)) := by
  have hv : PriceRequest.validate
      [("item", .str s), ("quantity", .int q), ("days", .int d)] = .ok ⟨s, q, d⟩ := rfl
  simp only [calculate_price, parse_body, hv, bindResult, calculate_price_core, h]
  exact ⟨_, rfl, rfl, rfl⟩

/-- Witness for C8: "chairs" with quantity -2 and days 3 passes validation
and returns the negative subtotal -30 and total 70. -/
theorem nonpositive_accepted_witness :
    ((-2 : Int) ≤ 0 ∨ (3 : Int) ≤ 0) ∧
    ∃ out,
      calculate_price (.json (.obj
        [("item", .str "chairs"), ("quantity", .int (-2)), ("days", .int 3)])) =
        .ok (.obj out) ∧
      getField out "subtotal" = some (.int (-30)) ∧
      getField out "total_price" = some (.int 70) := by
  refine ⟨Or.inl (by norm_num), ?_⟩
  have h := nonpositive_accepted "chairs" (-2) 3 ⟨5, 300⟩ (by rfl)
    (Or.inl (by norm_num))
  norm_num at h
  exact h

/-- Every entry `lookup` can return comes from the catalog, whose stock
counts are all non-negative. -/
theorem lookup_entry_available_nonneg {s : String} {e : Entry}
    (h : lookup s = some e) : 0 ≤ e.available := by
  unfold lookup at h
  cases hf : EQUIPMENT_DB.find? (fun p => p.1 == s) with
  | none => rw [hf] at h; simp at h
  | some p =>
    rw [hf] at h
    simp at h
    have hm : p ∈ EQUIPMENT_DB := List.mem_of_find?_eq_some hf
    subst h
    fin_cases hm <;> decide

/-- C9: every catalog item has non-negative stock, so a valid availability
query with quantity ≤ 0 is always reported available, because availability
is `requested_quantity ≤ available_quantity` with no lower bound on the
request. -/
theorem nonpositive_quantity_available (payload : AvailabilityRequest) (e : Entry)
    (h : lookup (pyLower payload.item) = some e) (hq : payload.quantity ≤ 0) :
    (∀ p ∈ EQUIPMENT_DB, 0 ≤ (Prod.snd p).available) ∧
    ∃ out, check_availability_core payload = .ok (.obj out) ∧
      getField out "available" = some (.bool true) := by
  refine ⟨by decide, ?_⟩
  have hb : decide (payload.quantity ≤ e.available) = true :=
    decide_eq_true (le_trans hq (lookup_entry_available_nonneg h))
  simp only [check_availability_core, h]
  refine ⟨_, rfl, ?_⟩
  rw [← hb]
  exact rfl

/-- Witness for C9: a quantity of 0 for "chairs" is reported available. -/
theorem nonpositive_quantity_available_witness :
    (∀ p ∈ EQUIPMENT_DB, 0 ≤ (Prod.snd p).available) ∧
    ∃ out, check_availability_core ⟨"chairs", 0, "2025-12-01"⟩ = .ok (.obj out) ∧
      getField out "available" = some (.bool true) :=
  nonpositive_quantity_available ⟨"chairs", 0, "2025-12-01"⟩ ⟨5, 300⟩
    (by rfl) (by norm_num)

/-- C10: the `item` in the success payloads of check-availability,
get-price and calculate-price is the lowercased form of the request's
item field, whereas create_booking's `booking_details.item` preserves the
caller's original casing although its membership check uses the lowercased
form. -/
theorem payload_item_casing (a : AvailabilityRequest) (p : PriceRequest)
    (b : BookingRequest) (ea ep eb : Entry)
    (ha : lookup (pyLower a.item) = some ea)
    (hp : lookup (pyLower p.item) = some ep)
    (hb : lookup (pyLower b.item) = some eb) :
    (∃ out, check_availability_core a = .ok (.obj out) ∧
      getField out "item" = some (.str (pyLower a.item))) ∧
    (∃ out, get_price_core p = .ok (.obj out) ∧
      getField out "item" = some (.str (pyLower p.item))) ∧
    (∃ out, calculate_price_core p = .ok (.obj out) ∧
      getField out "item" = some (.str (pyLower p.item))) ∧
    (∃ out, create_booking_core b = .ok (.obj out) ∧
      getField out "booking_details" = some (.obj b.dictFields) ∧
      getField b.dictFields "item" = some (.str b.item)) := by
  refine ⟨?_, ?_, ?_, ?_⟩
  · simp only [check_availability_core, ha]
    exact ⟨_, rfl, rfl⟩
  · simp only [get_price_core, hp]
    exact ⟨_, rfl, rfl⟩
  · simp only [calculate_price_core, hp]
    exact ⟨_, rfl, rfl⟩
  · simp only [create_booking_core, hb]
    exact ⟨_, rfl, rfl, rfl⟩

/-- Witness for C10 with the uppercase spelling "CHAIRS": the three
payloads echo "chairs" while the booking details keep "CHAIRS". -/
theorem payload_item_casing_witness :
    (∃ out, check_availability_core ⟨"CHAIRS", 4, "2025-12-01"⟩ = .ok (.obj out) ∧
      getField out "item" = some (.str "chairs")) ∧
    (∃ out, get_price_core ⟨"CHAIRS", 4, 2⟩ = .ok (.obj out) ∧
      getField out "item" = some (.str "chairs")) ∧
    (∃ out, calculate_price_core ⟨"CHAIRS", 4, 2⟩ = .ok (.obj out) ∧
      getField out "item" = some (.str "chairs")) ∧
    (∃ out, create_booking_core ⟨"Ama", "0200000000", "CHAIRS", 4, "2025-12-01", "Accra"⟩ =
        .ok (.obj out) ∧
      getField out "booking_details" =
        some (.obj (BookingRequest.dictFields
          ⟨"Ama", "0200000000", "CHAIRS", 4, "2025-12-01", "Accra"⟩)) ∧
      getField (BookingRequest.dictFields
          ⟨"Ama", "0200000000", "CHAIRS", 4, "2025-12-01", "Accra"⟩) "item" =
        some (.str "CHAIRS")) :=
  payload_item_casing ⟨"CHAIRS", 4, "2025-12-01"⟩ ⟨"CHAIRS", 4, 2⟩
    ⟨"Ama", "0200000000", "CHAIRS", 4, "2025-12-01", "Accra"⟩
    ⟨5, 300⟩ ⟨5, 300⟩ ⟨5, 300⟩ (by rfl) (by rfl) (by rfl)

end Rental
